import Mathlib

/-!
Verification development for the `wvu` graphics-assignment repository
(assignment 3).  The C++ sources are shallowly embedded:

* `shader_program.h` / the shader-program translation unit give a state
  machine (`ShaderProgram`, `Create`, `Use`, ...) over an abstract OpenGL
  driver.  The driver is modelled by an oracle environment `GLEnv`
  (compile/link success, diagnostic logs, file contents) together with an
  explicit `GLState` that records the handles created, deleted and used;
  `glCreateShader` / `glCreateProgram` hand out fresh non-zero ids from a
  counter, which is the documented OpenGL contract.
* `camera_utils.cc` and the linear-algebra translation unit
  (`Add3dPoints`, `ComputeCrossProduct`, ...) are pure float arithmetic,
  embedded over `ℝ`.
* `transformations.cc` leaves `ComputeTranslationMatrix` and
  `Model::ComputeModelMatrix` as stubs returning
  `Eigen::Matrix4f::Random()`: the returned matrix is drawn from the
  global pseudo-random stream and does not depend on the function
  arguments.  The stubs are embedded with an explicit `rand : Mat4`
  parameter standing for the matrix that the random stream produces at
  the call, so that the single relevant fact - the output is independent
  of the inputs - is preserved exactly.
-/

/-! ## Linear-algebra primitives (assignment translation unit) -/

/-- A 3d float vector (`Eigen::Vector3f`), embedded over `ℝ`. -/
structure V3 where
  x : ℝ
  y : ℝ
  z : ℝ

/-- `ComputeDotProduct(x, y)` from the assignment translation unit:
`x.dot(y)`, i.e. the standard euclidean dot product. -/
def ComputeDotProduct (a b : V3) : ℝ :=
  a.x * b.x + a.y * b.y + a.z * b.z

/-- `ComputeCrossProduct(x, y)` from the assignment translation unit:
`x.cross(y)`, Eigen's standard right-handed cross product. -/
def ComputeCrossProduct (a b : V3) : V3 :=
  ⟨a.y * b.z - a.z * b.y, a.z * b.x - a.x * b.z, a.x * b.y - a.y * b.x⟩

/-- `Eigen::Vector3f::UnitX()`. -/
def unitX : V3 := ⟨1, 0, 0⟩

/-- `Eigen::Vector3f::UnitY()`. -/
def unitY : V3 := ⟨0, 1, 0⟩

/-- `Eigen::Vector3f::UnitZ()`. -/
def unitZ : V3 := ⟨0, 0, 1⟩

/-! ## 4x4 matrices (`Eigen::Matrix4f`) -/

/-- A 4x4 float matrix (`Eigen::Matrix4f`), embedded over `ℝ` with one
field per entry; `mRC` is the entry at row `R`, column `C`. -/
structure Mat4 where
  m00 : ℝ
  m01 : ℝ
  m02 : ℝ
  m03 : ℝ
  m10 : ℝ
  m11 : ℝ
  m12 : ℝ
  m13 : ℝ
  m20 : ℝ
  m21 : ℝ
  m22 : ℝ
  m23 : ℝ
  m30 : ℝ
  m31 : ℝ
  m32 : ℝ
  m33 : ℝ

/-- Standard matrix product on `Mat4` (Eigen `operator*`). -/
def Mat4.mul (A B : Mat4) : Mat4 :=
  ⟨A.m00 * B.m00 + A.m01 * B.m10 + A.m02 * B.m20 + A.m03 * B.m30,
   A.m00 * B.m01 + A.m01 * B.m11 + A.m02 * B.m21 + A.m03 * B.m31,
   A.m00 * B.m02 + A.m01 * B.m12 + A.m02 * B.m22 + A.m03 * B.m32,
   A.m00 * B.m03 + A.m01 * B.m13 + A.m02 * B.m23 + A.m03 * B.m33,
   A.m10 * B.m00 + A.m11 * B.m10 + A.m12 * B.m20 + A.m13 * B.m30,
   A.m10 * B.m01 + A.m11 * B.m11 + A.m12 * B.m21 + A.m13 * B.m31,
   A.m10 * B.m02 + A.m11 * B.m12 + A.m12 * B.m22 + A.m13 * B.m32,
   A.m10 * B.m03 + A.m11 * B.m13 + A.m12 * B.m23 + A.m13 * B.m33,
   A.m20 * B.m00 + A.m21 * B.m10 + A.m22 * B.m20 + A.m23 * B.m30,
   A.m20 * B.m01 + A.m21 * B.m11 + A.m22 * B.m21 + A.m23 * B.m31,
   A.m20 * B.m02 + A.m21 * B.m12 + A.m22 * B.m22 + A.m23 * B.m32,
   A.m20 * B.m03 + A.m21 * B.m13 + A.m22 * B.m23 + A.m23 * B.m33,
   A.m30 * B.m00 + A.m31 * B.m10 + A.m32 * B.m20 + A.m33 * B.m30,
   A.m30 * B.m01 + A.m31 * B.m11 + A.m32 * B.m21 + A.m33 * B.m31,
   A.m30 * B.m02 + A.m31 * B.m12 + A.m32 * B.m22 + A.m33 * B.m32,
   A.m30 * B.m03 + A.m31 * B.m13 + A.m32 * B.m23 + A.m33 * B.m33⟩

/-! ## Camera projection (`camera_utils.cc`) -/

/-- `kHalfPi = 0.5f * M_PI` from `camera_utils.cc`. -/
noncomputable def kHalfPi : ℝ := 0.5 * Real.pi

/-- `ComputeCotangent(angle)` from `camera_utils.cc`:
`tan(kHalfPi - angle)`. -/
noncomputable def ComputeCotangent (angle : ℝ) : ℝ :=
  Real.tan (kHalfPi - angle)

/-- `ComputePerspectiveProjectionMatrix(field_of_view, aspect_ratio, near,
far)` from `camera_utils.cc`.  The locals of the source are inlined:
`y_scale = ComputeCotangent(0.5f * field_of_view)`,
`x_scale = y_scale / aspect_ratio`, `planes_distance = far - near`,
`z_scale = -(near + far) / planes_distance`,
`homogeneous_scale = -2 * near * far / planes_distance`, and the matrix
is filled row-major exactly as the `<<` statement does. -/
noncomputable def ComputePerspectiveProjectionMatrix
    (field_of_view aspect near far : ℝ) : Mat4 :=
  ⟨ComputeCotangent (0.5 * field_of_view) / aspect, 0, 0, 0,
   0, ComputeCotangent (0.5 * field_of_view), 0, 0,
   0, 0, -(near + far) / (far - near), -2 * near * far / (far - near),
   0, 0, -1, 0⟩

/-! ## Model entity (`model.h` / the model translation unit) -/

/-- The `wvu::Model` class: orientation (Rodrigues vector), position,
vertex matrix (`Eigen::MatrixXf`, embedded as a row list), EBO indices
and the three GPU buffer ids. -/
structure Model where
  orientation : V3
  position : V3
  vertices : List (List ℝ)
  indices : List Nat
  vertex_buffer_object_id : Nat
  vertex_array_object_id : Nat
  element_buffer_object_id : Nat

/-- The three-argument `Model` constructor: copies orientation, position
and vertices, leaves the index list empty and zeroes the buffer ids. -/
def Model.mk3 (orientation position : V3) (vertices : List (List ℝ)) :
    Model :=
  ⟨orientation, position, vertices, [], 0, 0, 0⟩

/-- The four-argument `Model` constructor (with EBO indices). -/
def Model.mk4 (orientation position : V3) (vertices : List (List ℝ))
    (indices : List Nat) : Model :=
  ⟨orientation, position, vertices, indices, 0, 0, 0⟩

/-- `Model::set_orientation(orientation)`: `orientation_ = orientation;`. -/
def Model.set_orientation (m : Model) (orientation : V3) : Model :=
  { m with orientation := orientation }

/-- `Model::set_position(position)`: `position_ = position;`. -/
def Model.set_position (m : Model) (position : V3) : Model :=
  { m with position := position }

/-- `Model::ComputeModelMatrix()` as it stands in `transformations.cc`
lines 144-147: the body is `// TODO(vfragoso): Implment me!` followed by
`return Eigen::Matrix4f::Random();`.  The pseudo-random draw is modelled
by the explicit parameter `rand`, the matrix the global random stream
yields at this call; the result does not depend on any member of the
model. -/
def Model.ComputeModelMatrix (rand : Mat4) (_m : Model) : Mat4 := rand

/-- `ComputeTranslationMatrix(offset)` as it stands in
`transformations.cc` lines 42-45: the body is `// TODO: Implement me!`
followed by `return Eigen::Matrix4f::Random();`.  As for
`Model.ComputeModelMatrix`, the pseudo-random draw is the explicit
`rand` parameter and the result does not depend on `offset`. -/
def ComputeTranslationMatrix (rand : Mat4) (_offset : V3) : Mat4 := rand

/-- Modelled from the spec: the intended `ComputeTranslationMatrix`
(section 4.1), whose body is missing from the source (TODO stub).  "returns
the 4x4 homogeneous matrix T such that T.[p;1] = [p+offset; 1] for any
3-vector p.  Identity matrix with offset placed in the last column's
first three rows." -/
def ComputeTranslationMatrixSpec (offset : V3) : Mat4 :=
  ⟨1, 0, 0, offset.x,
   0, 1, 0, offset.y,
   0, 0, 1, offset.z,
   0, 0, 0, 1⟩

/-- Euclidean norm of a `V3` (`Eigen .norm()`). -/
noncomputable def vnorm (v : V3) : ℝ :=
  Real.sqrt (v.x * v.x + v.y * v.y + v.z * v.z)

/-- Modelled from the spec: the intended `ComputeRotationMatrix(axis,
angle)` (section 4.1), whose body is missing from the source (TODO
stub).  Rodrigues formula `R = I + sin(t) K + (1 - cos(t)) K^2` on the
internally normalized axis `n = axis / |axis|`, embedded in the
upper-left 3x3 block of a 4x4 matrix with identity elsewhere. -/
noncomputable def ComputeRotationMatrixSpec (axis : V3) (angle : ℝ) :
    Mat4 :=
  let nx := axis.x / vnorm axis
  let ny := axis.y / vnorm axis
  let nz := axis.z / vnorm axis
  let s := Real.sin angle
  let c := Real.cos angle
  ⟨1 + (1 - c) * (-(ny * ny) - nz * nz),
   -(s * nz) + (1 - c) * (nx * ny),
   s * ny + (1 - c) * (nx * nz),
   0,
   s * nz + (1 - c) * (nx * ny),
   1 + (1 - c) * (-(nx * nx) - nz * nz),
   -(s * nx) + (1 - c) * (ny * nz),
   0,
   -(s * ny) + (1 - c) * (nx * nz),
   s * nx + (1 - c) * (ny * nz),
   1 + (1 - c) * (-(nx * nx) - ny * ny),
   0,
   0, 0, 0, 1⟩

/-- Modelled from the spec: the intended `Model::ComputeModelMatrix`
(section 4.4), whose body is missing from the source (TODO stub).  "must
return `ComputeTranslationMatrix(position) . ComputeRotationMatrix(axis,
angle) . I`, where axis = normalized orientation and angle = norm of
orientation". -/
noncomputable def ComputeModelMatrixSpec (m : Model) : Mat4 :=
  Mat4.mul (ComputeTranslationMatrixSpec m.position)
    (ComputeRotationMatrixSpec m.orientation (vnorm m.orientation))

/-- Offset `(1, 0, 0)`, a probe input for the stub claims. -/
def vA : V3 := ⟨1, 0, 0⟩

/-- Offset `(2, 0, 0)`, a second probe input for the stub claims. -/
def vB : V3 := ⟨2, 0, 0⟩

/-- Probe model: orientation `(0,0,1)`, position `(1,0,0)`, no
vertices. -/
def modelA : Model := Model.mk3 ⟨0, 0, 1⟩ ⟨1, 0, 0⟩ []

/-- Probe model: orientation `(0,0,1)`, position `(2,0,0)`, no
vertices. -/
def modelB : Model := Model.mk3 ⟨0, 0, 1⟩ ⟨2, 0, 0⟩ []

/-! ## ShaderProgram (`shader_program.h` and its translation unit)

The OpenGL driver is abstracted by an oracle environment `GLEnv` (the
compiler/linker verdicts and diagnostic logs, and the file system used
by the file-loading entry points) and an explicit `GLState` recording
the driver-visible effects.  `glCreateShader` and `glCreateProgram`
return fresh non-zero names from a shared counter, which is the OpenGL
contract for successful object creation. -/

/-- Oracle environment for the abstract OpenGL driver and file system. -/
structure GLEnv where
  compileOk : String → Bool
  compileLog : String → String
  linkOk : Bool
  linkLog : String
  files : String → Option String

/-- Driver-visible state: the fresh-name counter and the logs of created,
deleted and activated objects. -/
structure GLState where
  idCounter : Nat
  createdShaders : List Nat
  deletedShaders : List Nat
  createdPrograms : List Nat
  deletedPrograms : List Nat
  usedPrograms : List Nat
deriving DecidableEq

/-- The driver state before any call: no objects exist. -/
def glInit : GLState := ⟨0, [], [], [], [], []⟩

/-- `glCreateShader`: returns a fresh non-zero shader name and records
its creation. -/
def glCreateShader (gl : GLState) : Nat × GLState :=
  (gl.idCounter + 1,
   { gl with idCounter := gl.idCounter + 1,
             createdShaders := gl.createdShaders ++ [gl.idCounter + 1] })

/-- `glDeleteShader`: records the deletion of a shader name. -/
def glDeleteShader (id : Nat) (gl : GLState) : GLState :=
  { gl with deletedShaders := gl.deletedShaders ++ [id] }

/-- `glCreateProgram`: returns a fresh non-zero program name and records
its creation. -/
def glCreateProgram (gl : GLState) : Nat × GLState :=
  (gl.idCounter + 1,
   { gl with idCounter := gl.idCounter + 1,
             createdPrograms := gl.createdPrograms ++ [gl.idCounter + 1] })

/-- `glDeleteProgram`: records the deletion of a program name. -/
def glDeleteProgram (id : Nat) (gl : GLState) : GLState :=
  { gl with deletedPrograms := gl.deletedPrograms ++ [id] }

/-- `glUseProgram`: records the activation of a program name. -/
def glUseProgram (id : Nat) (gl : GLState) : GLState :=
  { gl with usedPrograms := gl.usedPrograms ++ [id] }

/-- The `ShaderType` enumeration of the shader-program translation
unit. -/
inductive ShaderType where
  | VERTEX
  | FRAGMENT
deriving DecidableEq

/-- The `wvu::ShaderProgram` class members (`shader_program.h`). -/
structure ShaderProgram where
  vertex_shader_src : String
  fragment_shader_src : String
  vertex_shader : Nat
  fragment_shader : Nat
  shader_program_id : Nat
  created : Bool
deriving DecidableEq

/-- The default `ShaderProgram` constructor: empty sources, zero
handles, `created_ = false`. -/
def ShaderProgram.init : ShaderProgram := ⟨"", "", 0, 0, 0, false⟩

/-- Result of the `CompileShader` / `CreateShaderProgram` helpers: the
returned object name, the driver state, and what the helper wrote into
its `info_log` out-string (`none` when it did not write). -/
structure CompileOut where
  id : Nat
  gl : GLState
  log : Option String
deriving DecidableEq

/-- Result of a `ShaderProgram` member call that can fail: the returned
boolean, the updated object, the driver state, and the log written. -/
structure StepOut where
  ok : Bool
  sp : ShaderProgram
  gl : GLState
  log : Option String
deriving DecidableEq

/-- `CompileShader(shader_src, shader_type, info_log)`: creates a shader
name, hands the source to the driver, and on compile failure writes the
driver's log and returns 0; on success returns the shader name.  The
created name is never deleted here. -/
def CompileShader (env : GLEnv) (src : String) (_ty : ShaderType)
    (gl : GLState) : CompileOut :=
  let r := glCreateShader gl
  if env.compileOk src then ⟨r.1, r.2, none⟩
  else ⟨0, r.2, some (env.compileLog src)⟩

/-- `CreateShaderProgram(vertex_shader, fragment_shader, info_log)`:
creates a program name, attaches both shaders and links; on link
failure writes the driver's log and returns 0, on success returns the
program name. -/
def CreateShaderProgram (env : GLEnv) (_vs _fs : Nat) (gl : GLState) :
    CompileOut :=
  let r := glCreateProgram gl
  if env.linkOk then ⟨r.1, r.2, none⟩
  else ⟨0, r.2, some env.linkLog⟩

/-- `ReleaseShaderResources(vertex_shader, fragment_shader)`: deletes
both shader names, vertex first. -/
def ReleaseShaderResources (vs fs : Nat) (gl : GLState) : GLState :=
  glDeleteShader fs (glDeleteShader vs gl)

/-- `LoadShaderFromFile(filepath, loaded_file)`: returns the file
contents, or `none` when the file cannot be opened. -/
def LoadShaderFromFile (env : GLEnv) (filepath : String) :
    Option String :=
  env.files filepath

/-- `ShaderProgram::LoadVertexShaderFromString`. -/
def ShaderProgram.LoadVertexShaderFromString (p : ShaderProgram)
    (src : String) : Bool × ShaderProgram :=
  (true, { p with vertex_shader_src := src })

/-- `ShaderProgram::LoadFragmentShaderFromString`. -/
def ShaderProgram.LoadFragmentShaderFromString (p : ShaderProgram)
    (src : String) : Bool × ShaderProgram :=
  (true, { p with fragment_shader_src := src })

/-- `ShaderProgram::LoadVertexShaderFromFile`: on an unreadable file
returns `false` and leaves the stored source unchanged. -/
def ShaderProgram.LoadVertexShaderFromFile (env : GLEnv)
    (p : ShaderProgram) (path : String) : Bool × ShaderProgram :=
  match LoadShaderFromFile env path with
  | none => (false, p)
  | some s => (true, { p with vertex_shader_src := s })

/-- `ShaderProgram::LoadFragmentShaderFromFile`. -/
def ShaderProgram.LoadFragmentShaderFromFile (env : GLEnv)
    (p : ShaderProgram) (path : String) : Bool × ShaderProgram :=
  match LoadShaderFromFile env path with
  | none => (false, p)
  | some s => (true, { p with fragment_shader_src := s })

/-- `ShaderProgram::BuildVertexShader`: stores the compile result in
`vertex_shader_` (0 on failure) and reports whether it is non-zero. -/
def BuildVertexShader (env : GLEnv) (p : ShaderProgram) (gl : GLState) :
    StepOut :=
  let c := CompileShader env p.vertex_shader_src ShaderType.VERTEX gl
  ⟨c.id != 0, { p with vertex_shader := c.id }, c.gl, c.log⟩

/-- `ShaderProgram::BuildFragmentShader`. -/
def BuildFragmentShader (env : GLEnv) (p : ShaderProgram)
    (gl : GLState) : StepOut :=
  let c := CompileShader env p.fragment_shader_src ShaderType.FRAGMENT gl
  ⟨c.id != 0, { p with fragment_shader := c.id }, c.gl, c.log⟩

/-- `ShaderProgram::LinkProgram`: stores the link result in
`shader_program_id_` (0 on failure), then releases both shader-stage
handles, and reports whether the program id is non-zero. -/
def LinkProgram (env : GLEnv) (p : ShaderProgram) (gl : GLState) :
    StepOut :=
  let c := CreateShaderProgram env p.vertex_shader p.fragment_shader gl
  ⟨c.id != 0, { p with shader_program_id := c.id },
   ReleaseShaderResources p.vertex_shader p.fragment_shader c.gl, c.log⟩

/-- `ShaderProgram::Create(error_info_log)`.  `wantLog` is whether the
caller supplied a non-null `error_info_log`; the returned `log` is what
the call wrote into it.  Mirrors the source: early return when already
created, then the three stages in order with first-failure abort, and
`created_ = true` only when all three succeed. -/
def Create (env : GLEnv) (p : ShaderProgram) (wantLog : Bool)
    (gl : GLState) : StepOut :=
  if p.created then ⟨true, p, gl, none⟩
  else
    let v := BuildVertexShader env p gl
    if v.ok = false then
      ⟨false, v.sp, v.gl, if wantLog then v.log else none⟩
    else
      let f := BuildFragmentShader env v.sp v.gl
      if f.ok = false then
        ⟨false, f.sp, f.gl, if wantLog then f.log else none⟩
      else
        let l := LinkProgram env f.sp f.gl
        if l.ok = false then
          ⟨false, l.sp, l.gl, if wantLog then l.log else none⟩
        else ⟨true, { l.sp with created := true }, l.gl, none⟩

/-- `ShaderProgram::Use()`: activates the program and returns `true`
when `created_`, otherwise returns `false` with no driver call. -/
def Use (p : ShaderProgram) (gl : GLState) : Bool × GLState :=
  if p.created then (true, glUseProgram p.shader_program_id gl)
  else (false, gl)

/-- The `ShaderProgram` destructor: deletes the program name exactly
when `created_`. -/
def ShaderProgram.destructor (p : ShaderProgram) (gl : GLState) :
    GLState :=
  if p.created then glDeleteProgram p.shader_program_id gl else gl

/-- One public call on a `ShaderProgram` (the operations named by the
invariant claim). -/
inductive ShaderOp where
  | loadVS (src : String)
  | loadFS (src : String)
  | loadVFile (path : String)
  | loadFFile (path : String)
  | create (wantLog : Bool)
  | use

/-- Runs one public call, threading the object and the driver state and
discarding the returned booleans as the callers may. -/
def stepOp (env : GLEnv) (s : ShaderProgram × GLState) (op : ShaderOp) :
    ShaderProgram × GLState :=
  match op with
  | ShaderOp.loadVS src => ((s.1.LoadVertexShaderFromString src).2, s.2)
  | ShaderOp.loadFS src => ((s.1.LoadFragmentShaderFromString src).2, s.2)
  | ShaderOp.loadVFile path =>
      ((ShaderProgram.LoadVertexShaderFromFile env s.1 path).2, s.2)
  | ShaderOp.loadFFile path =>
      ((ShaderProgram.LoadFragmentShaderFromFile env s.1 path).2, s.2)
  | ShaderOp.create w =>
      let r := Create env s.1 w s.2
      (r.sp, r.gl)
  | ShaderOp.use => (s.1, (Use s.1 s.2).2)

/-- Runs a sequence of public calls starting from the freshly
constructed object and the empty driver state. -/
def runOps (env : GLEnv) (ops : List ShaderOp) :
    ShaderProgram × GLState :=
  ops.foldl (stepOp env) (ShaderProgram.init, glInit)

/-- The claimed invariant: `created_` holds exactly when a linked
program handle is stored. -/
def createdInv (p : ShaderProgram) : Prop :=
  p.created = true ↔ p.shader_program_id ≠ 0

/-- Oracle on which every compilation fails (with log text `vlog`). -/
def envAllFail : GLEnv :=
  ⟨fun _ => false, fun _ => "vlog", false, "llog", fun _ => none⟩

/-- Oracle on which both compilations succeed and linking fails. -/
def envLinkFail : GLEnv :=
  ⟨fun _ => true, fun _ => "vlog", false, "llog", fun _ => none⟩

/-- Oracle on which all three stages succeed. -/
def envAllOk : GLEnv :=
  ⟨fun _ => true, fun _ => "vlog", true, "llog", fun _ => none⟩

/-- A program on which `Create` has already succeeded (flag set, handle
7). -/
def pCreated : ShaderProgram :=
  { ShaderProgram.init with created := true, shader_program_id := 7 }

/-! ## Theorems -/

/-- Claim C10: `Model::set_position(v)` sets only the stored position
(to a copy of `v`) and `Model::set_orientation(v)` sets only the stored
orientation; each leaves the other vector, the vertices, the indices and
all three GPU buffer ids unchanged. -/
theorem setters_frame_property (m : Model) (v : V3) :
    (m.set_position v).position = v ∧
    (m.set_position v).orientation = m.orientation ∧
    (m.set_position v).vertices = m.vertices ∧
    (m.set_position v).indices = m.indices ∧
    (m.set_position v).vertex_buffer_object_id =
      m.vertex_buffer_object_id ∧
    (m.set_position v).vertex_array_object_id =
      m.vertex_array_object_id ∧
    (m.set_position v).element_buffer_object_id =
      m.element_buffer_object_id ∧
    (m.set_orientation v).orientation = v ∧
    (m.set_orientation v).position = m.position ∧
    (m.set_orientation v).vertices = m.vertices ∧
    (m.set_orientation v).indices = m.indices ∧
    (m.set_orientation v).vertex_buffer_object_id =
      m.vertex_buffer_object_id ∧
    (m.set_orientation v).vertex_array_object_id =
      m.vertex_array_object_id ∧
    (m.set_orientation v).element_buffer_object_id =
      m.element_buffer_object_id :=
  ⟨rfl, rfl, rfl, rfl, rfl, rfl, rfl, rfl, rfl, rfl, rfl, rfl, rfl, rfl⟩

/-- Claim C8: `ComputeCrossProduct(x, y)` is orthogonal to both inputs,
and `ComputeCrossProduct(unitX, unitY)` has dot product 1 with `unitZ`
(right-handed orientation). -/
theorem cross_product_orthogonal_and_right_handed (x y : V3) :
    ComputeDotProduct (ComputeCrossProduct x y) x = 0 ∧
    ComputeDotProduct (ComputeCrossProduct x y) y = 0 ∧
    ComputeDotProduct (ComputeCrossProduct unitX unitY) unitZ = 1 := by
  refine ⟨?_, ?_, ?_⟩ <;>
    simp only [ComputeDotProduct, ComputeCrossProduct, unitX, unitY,
      unitZ] <;>
    ring

/-- Claim C6: `ComputePerspectiveProjectionMatrix(fov, aspect, near,
far)` returns the matrix with entry (0,0) = cot(fov/2)/aspect, entry
(1,1) = cot(fov/2), entry (2,2) = -(near+far)/(far-near), entry (2,3) =
-2 near far/(far-near), last row (0,0,-1,0) and zeroes elsewhere.
Proved for all real inputs, hence in particular on the claimed domain
fov in (0, pi), aspect > 0, far > near > 0. -/
theorem perspective_projection_matrix_entries
    (fov aspect near far : ℝ) :
    ComputePerspectiveProjectionMatrix fov aspect near far =
      ⟨Real.cot (fov / 2) / aspect, 0, 0, 0,
       0, Real.cot (fov / 2), 0, 0,
       0, 0, -(near + far) / (far - near),
       -2 * near * far / (far - near),
       0, 0, -1, 0⟩ := by
  have hcot : ComputeCotangent (0.5 * fov) = Real.cot (fov / 2) := by
    rw [ComputeCotangent, kHalfPi, Real.cot_eq_cos_div_sin]
    have h2 : (0.5 : ℝ) * Real.pi - 0.5 * fov =
        Real.pi / 2 - fov / 2 := by ring
    rw [h2, Real.tan_pi_div_two_sub, Real.tan_eq_sin_div_cos, inv_div]
  rw [ComputePerspectiveProjectionMatrix, hcot]

/-- Claim C7 (code bug): `ComputeTranslationMatrix` as implemented
returns `Eigen::Matrix4f::Random()`, so for every state of the random
stream its output at offsets `(1,0,0)` and `(2,0,0)` is the same matrix,
while the matrices the claim requires differ at entry (0,3) (1 versus
2); the stub therefore cannot return the claimed matrix for both
offsets.  The repository's own test
`TransformationsTest.TranslationMatrixCorrectness` asserts the claimed
behavior. -/
theorem translation_stub_ignores_offset (rand : Mat4) :
    ComputeTranslationMatrix rand vA = ComputeTranslationMatrix rand vB ∧
    (ComputeTranslationMatrixSpec vA).m03 = 1 ∧
    (ComputeTranslationMatrixSpec vB).m03 = 2 :=
  ⟨rfl, rfl, rfl⟩

/-- Claim C1 (code bug): `Model::ComputeModelMatrix` as implemented
returns `Eigen::Matrix4f::Random()`, so for every state of the random
stream its output on two models that differ only in position is the same
matrix, while the matrices the claim requires - translation times
Rodrigues rotation - differ at entry (0,3) (the position x coordinate, 1
versus 2); the stub therefore cannot return the claimed matrix for both
models.  The repository's own test `ModelTest.ComputeModelMatrix`
asserts the claimed behavior. -/
theorem modelMatrix_stub_ignores_model (rand : Mat4) :
    Model.ComputeModelMatrix rand modelA =
      Model.ComputeModelMatrix rand modelB ∧
    (ComputeModelMatrixSpec modelA).m03 = 1 ∧
    (ComputeModelMatrixSpec modelB).m03 = 2 := by
  refine ⟨rfl, ?_, ?_⟩ <;>
    simp only [ComputeModelMatrixSpec, Mat4.mul,
      ComputeTranslationMatrixSpec, ComputeRotationMatrixSpec, modelA,
      modelB, Model.mk3] <;>
    norm_num

/-- Claim C4: once `Create` has succeeded (`created_` is set), any
further `Create` call returns `true` immediately: the stored program
object is unchanged, no driver call is made (the GL state is unchanged,
so no compilation or linking happens), and nothing is written to the
caller's log. -/
theorem create_idempotent_after_success (env : GLEnv)
    (p : ShaderProgram) (w : Bool) (gl : GLState)
    (h : p.created = true) :
    Create env p w gl = ⟨true, p, gl, none⟩ := by
  simp [Create, h]

/-- Witness for claim C4 at a concrete created program. -/
theorem create_idempotent_after_success_witness :
    Create envAllFail pCreated true glInit =
      ⟨true, pCreated, glInit, none⟩ :=
  create_idempotent_after_success envAllFail pCreated true glInit rfl

/-- Claim C5: `Use()` returns `true` exactly when `created_` is set
(i.e. when `Create` has succeeded), and when `created_` is not set it
performs no shader activation: the driver state is untouched. -/
theorem use_requires_created (p : ShaderProgram) (gl : GLState) :
    (Use p gl).1 = p.created ∧
    (p.created = false → (Use p gl).2 = gl) := by
  constructor
  · rw [Use]
    cases h : p.created <;> simp [h]
  · intro h
    simp [Use, h]

/-- Witness for claim C5: on a fresh program (never created) `Use`
returns `false` and leaves the driver state untouched; on a created
program it returns `true`. -/
theorem use_requires_created_witness :
    (Use ShaderProgram.init glInit).1 = false ∧
    (Use ShaderProgram.init glInit).2 = glInit ∧
    (Use pCreated glInit).1 = true := by
  have h1 := use_requires_created ShaderProgram.init glInit
  have h2 := use_requires_created pCreated glInit
  exact ⟨h1.1, h1.2 rfl, h2.1⟩

/-- Claim C2 counterexample: on the vertex-compile-failure path of
`Create`, the shader-stage handle created by `glCreateShader` (id 1
here) is never passed to `glDeleteShader` before `Create` returns -
`ReleaseShaderResources` is only reached from `LinkProgram`, which this
path never executes.  This refutes the claim that every execution path
releases every created handle. -/
theorem create_compile_fail_leaks_shader_handle :
    (Create envAllFail ShaderProgram.init true glInit).ok = false ∧
    (Create envAllFail ShaderProgram.init true glInit).gl.createdShaders
      = [1] ∧
    (Create envAllFail ShaderProgram.init true glInit).gl.deletedShaders
      = [] ∧
    1 ∉ (Create envAllFail ShaderProgram.init true
      glInit).gl.deletedShaders := by
  refine ⟨rfl, rfl, rfl, ?_⟩
  decide

/-- Claim C2 as amended: the shader-stage handles are released
(`glDeleteShader` reached for both created handles) exactly on the
paths that reach linking - both when linking fails and on full success;
on a vertex- or fragment-compile failure `Create` returns without any
`glDeleteShader` call. -/
theorem create_releases_shaders_on_link_path (env : GLEnv)
    (p : ShaderProgram) (w : Bool) (gl : GLState)
    (hc : p.created = false) :
    (env.compileOk p.vertex_shader_src = true →
      env.compileOk p.fragment_shader_src = true →
      (Create env p w gl).gl.createdShaders =
        gl.createdShaders ++ [gl.idCounter + 1, gl.idCounter + 2] ∧
      (Create env p w gl).gl.deletedShaders =
        gl.deletedShaders ++ [gl.idCounter + 1, gl.idCounter + 2]) ∧
    ((env.compileOk p.vertex_shader_src = false ∨
      env.compileOk p.fragment_shader_src = false) →
      (Create env p w gl).gl.deletedShaders = gl.deletedShaders) := by
  constructor
  · intro hv hf
    cases hl : env.linkOk <;>
      simp [Create, BuildVertexShader, BuildFragmentShader, LinkProgram,
        CompileShader, CreateShaderProgram, ReleaseShaderResources,
        glCreateShader, glCreateProgram, glDeleteShader, hc, hv, hf, hl]
  · intro hfail
    cases hv : env.compileOk p.vertex_shader_src
    · simp [Create, BuildVertexShader, CompileShader, glCreateShader,
        hc, hv]
    · have hf : env.compileOk p.fragment_shader_src = false := by
        rcases hfail with h | h
        · rw [hv] at h
          exact Bool.noConfusion h
        · exact h
      simp [Create, BuildVertexShader, BuildFragmentShader,
        CompileShader, glCreateShader, hc, hv, hf]

/-- Witness for the amended claim C2: with both compiles succeeding,
the two created handles (1 and 2) are both deleted, whether linking
fails or succeeds. -/
theorem create_releases_shaders_on_link_path_witness :
    (Create envLinkFail ShaderProgram.init true glInit).gl.createdShaders
      = [1, 2] ∧
    (Create envLinkFail ShaderProgram.init true glInit).gl.deletedShaders
      = [1, 2] ∧
    (Create envAllOk ShaderProgram.init true glInit).gl.deletedShaders
      = [1, 2] := by
  have h1 := create_releases_shaders_on_link_path envLinkFail
    ShaderProgram.init true glInit rfl
  have h2 := create_releases_shaders_on_link_path envAllOk
    ShaderProgram.init true glInit rfl
  exact ⟨(h1.1 rfl rfl).1, (h1.1 rfl rfl).2, (h2.1 rfl rfl).2⟩

/-- Claim C3: on a program not yet created, if the vertex compile, the
fragment compile or the link fails, `Create` returns `false`, copies the
failing stage's driver log into the caller-supplied string, leaves
`shader_program_id()` at 0, and aborts the remaining stages (on a
compile failure no program object is ever created). -/
theorem create_failure_reports_log_and_keeps_zero_id (env : GLEnv)
    (p : ShaderProgram) (gl : GLState)
    (hc : p.created = false) (hid : p.shader_program_id = 0)
    (hfail : env.compileOk p.vertex_shader_src = false ∨
      env.compileOk p.fragment_shader_src = false ∨
      env.linkOk = false) :
    (Create env p true gl).ok = false ∧
    (Create env p true gl).log =
      some (if env.compileOk p.vertex_shader_src = false then
              env.compileLog p.vertex_shader_src
            else if env.compileOk p.fragment_shader_src = false then
              env.compileLog p.fragment_shader_src
            else env.linkLog) ∧
    (Create env p true gl).sp.shader_program_id = 0 ∧
    ((env.compileOk p.vertex_shader_src = false ∨
      env.compileOk p.fragment_shader_src = false) →
      (Create env p true gl).gl.createdPrograms = gl.createdPrograms) := by
  cases hv : env.compileOk p.vertex_shader_src <;>
  cases hf : env.compileOk p.fragment_shader_src <;>
  cases hl : env.linkOk <;>
  simp_all [Create, BuildVertexShader, BuildFragmentShader, LinkProgram,
    CompileShader, CreateShaderProgram, ReleaseShaderResources,
    glCreateShader, glCreateProgram, glDeleteShader]

/-- Witness for claim C3 on a vertex-compile failure: `Create` fails,
reports the compiler log, keeps the program id at 0 and creates no
program object. -/
theorem create_failure_reports_log_witness :
    (Create envAllFail ShaderProgram.init true glInit).ok = false ∧
    (Create envAllFail ShaderProgram.init true glInit).log =
      some "vlog" ∧
    (Create envAllFail ShaderProgram.init true
      glInit).sp.shader_program_id = 0 ∧
    (Create envAllFail ShaderProgram.init true
      glInit).gl.createdPrograms = [] := by
  have h := create_failure_reports_log_and_keeps_zero_id envAllFail
    ShaderProgram.init glInit rfl rfl (Or.inl rfl)
  exact ⟨h.1, h.2.1, h.2.2.1, h.2.2.2 (Or.inl rfl)⟩

/-- `Create` preserves the created-iff-nonzero-handle invariant. -/
theorem createdInv_Create (env : GLEnv) (p : ShaderProgram) (w : Bool)
    (gl : GLState) (h : createdInv p) :
    createdInv (Create env p w gl).sp := by
  unfold createdInv at h ⊢
  cases hc : p.created with
  | false =>
      have hid : p.shader_program_id = 0 := by
        by_contra hne
        have hx := h.mpr hne
        rw [hc] at hx
        exact Bool.noConfusion hx
      cases hv : env.compileOk p.vertex_shader_src <;>
      cases hf : env.compileOk p.fragment_shader_src <;>
      cases hl : env.linkOk <;>
      simp [Create, BuildVertexShader, BuildFragmentShader, LinkProgram,
        CompileShader, CreateShaderProgram, ReleaseShaderResources,
        glCreateShader, glCreateProgram, glDeleteShader, hc, hid, hv,
        hf, hl]
  | true =>
      simpa [Create, hc] using h

/-- Every public call preserves the created-iff-nonzero-handle
invariant. -/
theorem createdInv_stepOp (env : GLEnv) (s : ShaderProgram × GLState)
    (op : ShaderOp) (h : createdInv s.1) :
    createdInv (stepOp env s op).1 := by
  cases op with
  | loadVS src =>
      simpa [stepOp, ShaderProgram.LoadVertexShaderFromString,
        createdInv] using h
  | loadFS src =>
      simpa [stepOp, ShaderProgram.LoadFragmentShaderFromString,
        createdInv] using h
  | loadVFile path =>
      cases hfp : LoadShaderFromFile env path <;>
        simpa [stepOp, ShaderProgram.LoadVertexShaderFromFile, hfp,
          createdInv] using h
  | loadFFile path =>
      cases hfp : LoadShaderFromFile env path <;>
        simpa [stepOp, ShaderProgram.LoadFragmentShaderFromFile, hfp,
          createdInv] using h
  | create w => exact createdInv_Create env s.1 w s.2 h
  | use => simpa [stepOp] using h

/-- The invariant holds after any fold of public calls. -/
theorem createdInv_foldl (env : GLEnv) (ops : List ShaderOp) :
    ∀ s : ShaderProgram × GLState, createdInv s.1 →
      createdInv (ops.foldl (stepOp env) s).1 := by
  induction ops with
  | nil => intro s h; simpa using h
  | cons op rest ih =>
      intro s h
      exact ih _ (createdInv_stepOp env s op h)

/-- Claim C9: after the constructor and any sequence of public calls
(loads from string or file, `Create`, `Use`), the `created_` flag is
true exactly when `shader_program_id_` is non-zero; consequently the
destructor issues `glDeleteProgram` on the stored handle exactly when a
linked program handle exists. -/
theorem created_flag_matches_program_id_invariant (env : GLEnv)
    (ops : List ShaderOp) (gl0 : GLState) :
    createdInv (runOps env ops).1 ∧
    ((runOps env ops).1.destructor gl0).deletedPrograms =
      (if (runOps env ops).1.shader_program_id ≠ 0 then
        gl0.deletedPrograms ++ [(runOps env ops).1.shader_program_id]
      else gl0.deletedPrograms) := by
  have hinv : createdInv (runOps env ops).1 :=
    createdInv_foldl env ops (ShaderProgram.init, glInit)
      (by simp [createdInv, ShaderProgram.init])
  refine ⟨hinv, ?_⟩
  cases hc : (runOps env ops).1.created with
  | false =>
      have hid : (runOps env ops).1.shader_program_id = 0 := by
        by_contra hne
        have hx := hinv.mpr hne
        rw [hc] at hx
        exact Bool.noConfusion hx
      simp [ShaderProgram.destructor, hc, hid]
  | true =>
      have hid := hinv.mp hc
      simp [ShaderProgram.destructor, hc, hid, glDeleteProgram]
